import Mathlib

/-
  Verification of the FlowScore credit-risk dashboard (src/app.py).
  Shallow embedding: numeric values are rationals, the UI/session glue is
  explicit state passing, and each pipeline stage of app.py is a Lean
  definition translated from the corresponding source lines.
-/

namespace FlowScore

/-- Session-state input record stored at button press (app.py lines 103-113,
`st.session_state[ inputs ]`).  Field names follow the source dictionary keys;
the percentage-denominated fields keep a `_pct` reminder of their unit
(source names: debt_ratio, current_ratio, late_pay_ratio, tx_volatility). -/
structure Vals where
  sales_growth : ℚ
  debt_pct : ℚ
  current_pct : ℚ
  late_pay_pct : ℚ
  avg_delay_days : ℚ
  tx_vol : ℚ
  biz_score : ℚ
  ceo_score : ℚ
  avg_tx_hour : ℚ
deriving DecidableEq, Repr

/-- Sales-growth expression from app.py line 104:
`(sales_curr - sales_prev) / sales_prev if sales_prev > 0 else 0`. -/
def sales_growth (sales_curr sales_prev : ℚ) : ℚ :=
  if sales_prev > 0 then (sales_curr - sales_prev) / sales_prev else 0

/-- Construction of the session input record from the raw sidebar inputs,
app.py lines 100-113.  Argument order follows the sidebar widget order. -/
def mkVals (sales_curr sales_prev biz_score debt_pct current_pct
    late_pay_pct avg_tx_hour avg_delay_days tx_vol ceo_score : ℚ) : Vals :=
  { sales_growth := sales_growth sales_curr sales_prev
    debt_pct := debt_pct
    current_pct := current_pct
    late_pay_pct := late_pay_pct
    avg_delay_days := avg_delay_days
    tx_vol := tx_vol
    biz_score := biz_score
    ceo_score := ceo_score
    avg_tx_hour := avg_tx_hour }

/-- The model feature-column order, app.py lines 130-134. -/
def features : List String :=
  ["Biz_Score", "Sales_Growth", "Late_Pay_Ratio", "Avg_Delay_Days",
   "Debt_Ratio", "Current_Ratio", "Tx_Volatility", "Avg_Tx_Hour",
   "CEO_Score", "Weekend_Tx_Ratio", "OPM_Change", "Rev_Per_Emp", "Emp_Momentum"]

/-- The encoded feature record fed to the classifier, app.py lines 136-147.
The pandas row dictionary is modelled as an ordered association list; its key
order already coincides with `features`, which the `[features]` reindex in the
source therefore leaves unchanged. -/
def input_df (v : Vals) : List (String × ℚ) :=
  [("Biz_Score", v.biz_score),
   ("Sales_Growth", v.sales_growth),
   ("Late_Pay_Ratio", v.late_pay_pct / 100),
   ("Avg_Delay_Days", v.avg_delay_days),
   ("Debt_Ratio", v.debt_pct),
   ("Current_Ratio", v.current_pct / 100),
   ("Tx_Volatility", v.tx_vol),
   ("Avg_Tx_Hour", v.avg_tx_hour),
   ("CEO_Score", v.ceo_score),
   ("Weekend_Tx_Ratio", 0.0),
   ("OPM_Change", 0.02),
   ("Rev_Per_Emp", 300000),
   ("Emp_Momentum", 0.05)]

/-- Risk score derived from the approval probability, app.py line 152:
`risk_score = (1 - prob) * 100`. -/
def risk_score (prob : ℚ) : ℚ := (1 - prob) * 100

/-- Grade label and display color, app.py lines 157-160. -/
def grade_color (rs : ℚ) : String × String :=
  if rs ≥ 80 then ("D (위험)", "red")
  else if rs ≥ 50 then ("C (경고)", "orange")
  else if rs ≥ 20 then ("B (관찰)", "blue")
  else ("A (우량)", "green")

/-- Grade label component of `grade_color`. -/
def grade (rs : ℚ) : String := (grade_color rs).1

/-- Recommendation branch, app.py lines 168-171 (same test reused at line
305): approve exactly when `prob >= 0.5`. -/
def recommendation (prob : ℚ) : String :=
  if prob ≥ 0.5 then ("승인 권장") else ("거절 권장")

/-- One rule-based explanation factor, app.py lines 212-231.  Each
constructor stands for one appended (title, description) string pair and
carries the numeric value interpolated into that pair, so that equal factors
correspond to equal rendered strings. -/
inductive Factor where
  | latePayExcess (pct : ℚ)
  | healthyPayment
  | payDelay (days : ℚ)
  | faithfulRepay
  | debtDanger (pct : ℚ)
  | soundFinance
  | revenueDecline (g : ℚ)
  | highGrowth (g : ℚ)
deriving DecidableEq, Repr

/-- The sequential construction of the positive and negative factor lists,
app.py lines 208-231, with the four if/elif rules applied in source order. -/
def riskFactors (v : Vals) : List Factor × List Factor :=
  let positives : List Factor := []
  let negatives : List Factor := []
  let (positives, negatives) :=
    if v.late_pay_pct > 20 then (positives, negatives ++ [Factor.latePayExcess v.late_pay_pct])
    else if v.late_pay_pct < 5 then (positives ++ [Factor.healthyPayment], negatives)
    else (positives, negatives)
  let (positives, negatives) :=
    if v.avg_delay_days > 5 then (positives, negatives ++ [Factor.payDelay v.avg_delay_days])
    else (positives ++ [Factor.faithfulRepay], negatives)
  let (positives, negatives) :=
    if v.debt_pct > 300 then (positives, negatives ++ [Factor.debtDanger v.debt_pct])
    else if v.debt_pct < 100 then (positives ++ [Factor.soundFinance], negatives)
    else (positives, negatives)
  let (positives, negatives) :=
    if v.sales_growth < 0 then (positives, negatives ++ [Factor.revenueDecline v.sales_growth])
    else if v.sales_growth > 0.2 then (positives ++ [Factor.highGrowth v.sales_growth], negatives)
    else (positives, negatives)
  (positives, negatives)

/-- The five radar-chart values, app.py lines 176-182, in source order:
business credit, growth, payment attitude, fund stability, CEO credit. -/
def data_radar (v : Vals) : List ℚ :=
  [min 1 (max 0 (v.biz_score / 100)),
   min 1 (max 0 (v.sales_growth + 0.5)),
   min 1 (max 0 (1 - v.late_pay_pct / 100)),
   min 1 (max 0 (1 - v.tx_vol)),
   min 1 (max 0 ((v.ceo_score - 500) / 500))]

/-- Peer-comparison reference for the afternoon-payment ratio, app.py line 259. -/
def REF_LATE_PAY : ℚ := 10

/-- Peer-comparison reference for the debt ratio, app.py line 260. -/
def REF_DEBT : ℚ := 200

/-- Peer-comparison reference for the average delay days, app.py line 261. -/
def REF_DELAY : ℚ := 5

/-- Peer flag on the afternoon-payment ratio, app.py line 270:
the 위험 초과 marker is shown exactly when `curr > REF_LATE_PAY`. -/
def latePayFlag (v : Vals) : Bool := decide (v.late_pay_pct > REF_LATE_PAY)

/-- Peer flag on the debt ratio, app.py line 278. -/
def debtFlag (v : Vals) : Bool := decide (v.debt_pct > REF_DEBT)

/-- Peer flag on the average delay days, app.py line 286. -/
def delayFlag (v : Vals) : Bool := decide (v.avg_delay_days > REF_DELAY)

/-- Numeric values interpolated into the 재무건전성 block of the report
prompt, app.py lines 308-311: the growth line shows `sales_growth*100`, the
debt line shows the raw debt ratio, and the 유동비율 line shows
`vals[current_ratio]*100`. -/
def prompt_finance_vals (v : Vals) : List ℚ :=
  [v.sales_growth * 100, v.debt_pct, v.current_pct * 100]

/-- The value rendered on the 유동비율 line of the prompt, app.py line 311. -/
def prompt_current_pct (v : Vals) : ℚ := v.current_pct * 100

/-- Dashboard state around the report-generation step: the stored inputs and
prediction (from which score, grade and factors are recomputed on each rerun)
plus the stored narrative report and the surfaced error messages. -/
structure Session where
  vals : Vals
  prob : ℚ
  genai_report : String
  errors : List String
deriving DecidableEq, Repr

/-- Effect of one chat-completions call on the session, app.py lines 326-335:
on success the response text is stored into `genai_report`; on an exception
the handler only surfaces the error message and touches nothing else. -/
def generateStep (result : Except String String) (s : Session) : Session :=
  match result with
  | Except.ok text => { s with genai_report := text }
  | Except.error e => { s with errors := s.errors ++ ["❌ 에러 발생: " ++ e] }

/-- Report display, app.py lines 338-339: the stored report is rendered
exactly when it is a non-empty string. -/
def displayedReport (s : Session) : Option String :=
  if s.genai_report = "" then none else some s.genai_report

/-- Modelled from the spec (section 4.1, current_ratio_fraction): the
claimed encoding heuristic that divides by 100 only when the raw value
exceeds 10.  Stated for comparison with the actual encoding in `input_df`;
no such branch exists in src/app.py. -/
def current_ratio_fraction_spec (r : ℚ) : ℚ :=
  if r > 10 then r / 100 else r

/-- Clamp to the unit interval, the normalization the spec states for every
radar dimension (section 6, clamped to the interval from 0 to 1). -/
def clamp01 (x : ℚ) : ℚ := min 1 (max 0 x)

/-
  Helper lemmas shared by the claim theorems.
-/

/-- The sequentially built factor lists equal the concatenation of the four
per-rule contributions, in source rule order. -/
theorem riskFactors_eq (v : Vals) :
    riskFactors v =
      ((if v.late_pay_pct > 20 then [] else if v.late_pay_pct < 5 then [Factor.healthyPayment] else []) ++
        (if v.avg_delay_days > 5 then [] else [Factor.faithfulRepay]) ++
        (if v.debt_pct > 300 then [] else if v.debt_pct < 100 then [Factor.soundFinance] else []) ++
        (if v.sales_growth < 0 then [] else if v.sales_growth > 0.2 then [Factor.highGrowth v.sales_growth] else []),
       (if v.late_pay_pct > 20 then [Factor.latePayExcess v.late_pay_pct] else []) ++
        (if v.avg_delay_days > 5 then [Factor.payDelay v.avg_delay_days] else []) ++
        (if v.debt_pct > 300 then [Factor.debtDanger v.debt_pct] else []) ++
        (if v.sales_growth < 0 then [Factor.revenueDecline v.sales_growth] else [])) := by
  unfold riskFactors
  split_ifs <;> rfl

/-- The D branch of the grade cascade fires exactly on scores of at least 80. -/
theorem grade_eq_D (x : ℚ) : grade x = "D (위험)" ↔ 80 ≤ x := by
  unfold grade grade_color
  split_ifs with h80 h50 h20
  · exact ⟨fun _ => h80, fun _ => rfl⟩
  · exact ⟨fun h => absurd h (by decide), fun h => absurd h h80⟩
  · exact ⟨fun h => absurd h (by decide), fun h => absurd h h80⟩
  · exact ⟨fun h => absurd h (by decide), fun h => absurd h h80⟩

/-- The C branch of the grade cascade fires exactly on scores in [50, 80). -/
theorem grade_eq_C (x : ℚ) : grade x = "C (경고)" ↔ 50 ≤ x ∧ x < 80 := by
  unfold grade grade_color
  split_ifs with h80 h50 h20
  · exact ⟨fun h => absurd h (by decide), fun h => absurd h80 (not_le.mpr h.2)⟩
  · exact ⟨fun _ => ⟨h50, lt_of_not_ge h80⟩, fun _ => rfl⟩
  · exact ⟨fun h => absurd h (by decide), fun h => absurd h.1 h50⟩
  · exact ⟨fun h => absurd h (by decide), fun h => absurd h.1 h50⟩

/-- The B branch of the grade cascade fires exactly on scores in [20, 50). -/
theorem grade_eq_B (x : ℚ) : grade x = "B (관찰)" ↔ 20 ≤ x ∧ x < 50 := by
  unfold grade grade_color
  split_ifs with h80 h50 h20
  · exact ⟨fun h => absurd h (by decide),
      fun h => absurd h80 (not_le.mpr (h.2.trans (by norm_num)))⟩
  · exact ⟨fun h => absurd h (by decide), fun h => absurd h50 (not_le.mpr h.2)⟩
  · exact ⟨fun _ => ⟨h20, lt_of_not_ge h50⟩, fun _ => rfl⟩
  · exact ⟨fun h => absurd h (by decide), fun h => absurd h.1 h20⟩

/-- The A branch of the grade cascade fires exactly on scores below 20. -/
theorem grade_eq_A (x : ℚ) : grade x = "A (우량)" ↔ x < 20 := by
  unfold grade grade_color
  split_ifs with h80 h50 h20
  · exact ⟨fun h => absurd h (by decide),
      fun h => absurd h80 (not_le.mpr (h.trans (by norm_num)))⟩
  · exact ⟨fun h => absurd h (by decide),
      fun h => absurd h50 (not_le.mpr (h.trans (by norm_num)))⟩
  · exact ⟨fun h => absurd h (by decide), fun h => absurd h20 (not_le.mpr h)⟩
  · exact ⟨fun _ => lt_of_not_ge h20, fun _ => rfl⟩

/-- The recommendation banner shows the approve text exactly when the
approval probability is at least one half. -/
theorem recommendation_approve_iff (prob : ℚ) :
    recommendation prob = "승인 권장" ↔ 1/2 ≤ prob := by
  unfold recommendation
  by_cases h : prob ≥ (0.5 : ℚ)
  · rw [if_pos h]
    simp only [true_iff, iff_true]
    exact le_trans (by norm_num) h
  · rw [if_neg h]
    constructor
    · intro hs
      exact absurd hs (by decide)
    · intro hp
      exact absurd (le_trans (by norm_num : (0.5 : ℚ) ≤ 1/2) hp) h

/-
  Claim theorems.
-/

/-- C1 (counterexample): the claimed encoding heuristic is false on the
code.  At a raw current-ratio input of 5 (which is at most 10), app.py line
142 still divides by 100, so the encoded feature is 1/20, while the spec
formula leaves 5 unchanged; the two disagree. -/
theorem current_ratio_heuristic_counterexample :
    (input_df (mkVals 120 100 75 200 5 5 14 0 0.2 850)).lookup ("Current_Ratio")
        = some (1/20) ∧
    current_ratio_fraction_spec 5 = 5 ∧
    ((1 : ℚ)/20) ≠ 5 := by
  refine ⟨?_, ?_, by norm_num⟩
  · have h : (input_df (mkVals 120 100 75 200 5 5 14 0 0.2 850)).lookup ("Current_Ratio")
        = some ((5 : ℚ) / 100) := rfl
    rw [h]
    norm_num
  · unfold current_ratio_fraction_spec
    norm_num

/-- C1 (amended): the encoded current-ratio feature is the raw value divided
by 100 for every input, with no conditional branch at 10 (app.py line 142). -/
theorem current_ratio_always_divided (v : Vals) :
    (input_df v).lookup ("Current_Ratio") = some (v.current_pct / 100) := rfl

/-- C2: the 유동비율 line of the report prompt renders the stored raw
percentage multiplied by 100 (app.py line 311); for the default input 120
the prompt shows 12000.0, which is neither the raw input 120 nor the
encoded model feature 6/5. -/
theorem prompt_current_times100 :
    (∀ sc sp bs dp cp lp th dd tv cs : ℚ,
      prompt_current_pct (mkVals sc sp bs dp cp lp th dd tv cs) = cp * 100) ∧
    prompt_current_pct (mkVals 120 100 75 200 120 5 14 0 0.2 850) = 12000 ∧
    (12000 : ℚ) ≠ 120 ∧
    (input_df (mkVals 120 100 75 200 120 5 14 0 0.2 850)).lookup ("Current_Ratio")
        = some (6/5) ∧
    (12000 : ℚ) ≠ 6/5 := by
  refine ⟨fun _ _ _ _ _ _ _ _ _ _ => rfl, ?_, by norm_num, ?_, by norm_num⟩
  · show (120 : ℚ) * 100 = 12000
    norm_num
  · have h : (input_df (mkVals 120 100 75 200 120 5 14 0 0.2 850)).lookup ("Current_Ratio")
        = some ((120 : ℚ) / 100) := rfl
    rw [h]
    norm_num

/-- C3: at approval probability exactly one half the risk score is exactly
50, the grade is the C label, and the recommendation is the approve banner;
in general the approve banner appears exactly when the probability is at
least one half (app.py lines 152, 157-160, 168-171). -/
theorem score_fifty_grade_C_and_approve :
    risk_score (1/2) = 50 ∧
    grade (risk_score (1/2)) = "C (경고)" ∧
    recommendation (1/2) = "승인 권장" ∧
    (∀ prob : ℚ, recommendation prob = "승인 권장" ↔ 1/2 ≤ prob) := by
  have h50 : risk_score (1/2) = 50 := by
    unfold risk_score
    norm_num
  refine ⟨h50, ?_, ?_, recommendation_approve_iff⟩
  · rw [h50, grade_eq_C]
    norm_num
  · rw [recommendation_approve_iff]

/-- C4: on the score range [0, 100] the grade label is determined purely by
the fixed thresholds of app.py lines 157-160: D exactly on scores of at
least 80, C exactly on [50, 80), B exactly on [20, 50), A exactly below 20,
with the stated behavior at the boundaries 20, 50 and 80. -/
theorem grade_thresholds (x : ℚ) (h0 : 0 ≤ x) (h1 : x ≤ 100) :
    (grade x = "D (위험)" ↔ 80 ≤ x) ∧
    (grade x = "C (경고)" ↔ 50 ≤ x ∧ x < 80) ∧
    (grade x = "B (관찰)" ↔ 20 ≤ x ∧ x < 50) ∧
    (grade x = "A (우량)" ↔ x < 20) :=
  ⟨grade_eq_D x, grade_eq_C x, grade_eq_B x, grade_eq_A x⟩

/-- C4 witness: the theorem instantiated at the boundary score 50. -/
theorem grade_thresholds_witness :
    (grade 50 = "D (위험)" ↔ (80 : ℚ) ≤ 50) ∧
    (grade 50 = "C (경고)" ↔ (50 : ℚ) ≤ 50 ∧ (50 : ℚ) < 80) ∧
    (grade 50 = "B (관찰)" ↔ (20 : ℚ) ≤ 50 ∧ (50 : ℚ) < 50) ∧
    (grade 50 = "A (우량)" ↔ (50 : ℚ) < 20) :=
  grade_thresholds 50 (by norm_num) (by norm_num)

/-- C5: each explanation rule of app.py lines 212-231 contributes its factor
exactly on the stated side of its thresholds: afternoon payments above 20
percent give the negative liquidity factor and below 5 percent the positive
habit factor (the closed band between them gives neither); delays above 5
days give the negative factor and otherwise the positive one; debt above 300
percent gives the negative factor and below 100 percent the positive one
(the closed band gives neither); negative growth gives the negative factor
and growth above 0.2 the positive one (the closed band from 0 to 0.2,
including exactly 0.2, gives neither). -/
theorem factor_rules (v : Vals) :
    (Factor.latePayExcess v.late_pay_pct ∈ (riskFactors v).2 ↔ 20 < v.late_pay_pct) ∧
    (Factor.healthyPayment ∈ (riskFactors v).1 ↔ v.late_pay_pct < 5) ∧
    (Factor.payDelay v.avg_delay_days ∈ (riskFactors v).2 ↔ 5 < v.avg_delay_days) ∧
    (Factor.faithfulRepay ∈ (riskFactors v).1 ↔ v.avg_delay_days ≤ 5) ∧
    (Factor.debtDanger v.debt_pct ∈ (riskFactors v).2 ↔ 300 < v.debt_pct) ∧
    (Factor.soundFinance ∈ (riskFactors v).1 ↔ v.debt_pct < 100) ∧
    (Factor.revenueDecline v.sales_growth ∈ (riskFactors v).2 ↔ v.sales_growth < 0) ∧
    (Factor.highGrowth v.sales_growth ∈ (riskFactors v).1 ↔ 0.2 < v.sales_growth) := by
  rw [riskFactors_eq]
  refine ⟨?_, ?_, ?_, ?_, ?_, ?_, ?_, ?_⟩ <;>
    simp only [List.mem_append, List.mem_ite_nil_right, List.mem_ite_nil_left,
      List.mem_singleton] <;>
    simp <;>
    intro h <;>
    linarith

/-- C6: the stored sales growth equals the relative change whenever the
prior revenue is positive and is exactly 0 otherwise, in particular at a
prior revenue of exactly 0; the definition is total, so no division error
can occur (app.py line 104). -/
theorem sales_growth_total_guarded :
    (∀ c p : ℚ, 0 < p → sales_growth c p = (c - p) / p) ∧
    (∀ c p : ℚ, p ≤ 0 → sales_growth c p = 0) ∧
    (∀ c : ℚ, sales_growth c 0 = 0) :=
  ⟨fun _ _ hp => if_pos hp,
   fun _ _ hp => if_neg (not_lt.mpr hp),
   fun _ => if_neg (lt_irrefl 0)⟩

/-- C6 witness: the theorem instantiated at prior revenue 0 (scenario 2 of
the spec) and at the positive prior 100. -/
theorem sales_growth_total_guarded_witness :
    sales_growth 50 0 = 0 ∧ sales_growth 120 100 = (120 - 100) / 100 :=
  ⟨sales_growth_total_guarded.2.2 50,
   sales_growth_total_guarded.1 120 100 (by norm_num)⟩

/-- C7: for every input the encoded record has exactly 13 fields, its column
names appear in exactly the trained order of the features list, and the last
four fields are the constants 0.0, 0.02, 300000 and 0.05 independent of the
user input (app.py lines 130-147). -/
theorem feature_vector_shape (v : Vals) :
    (input_df v).length = 13 ∧
    (input_df v).map Prod.fst = features ∧
    (input_df v).drop 9 =
      [("Weekend_Tx_Ratio", (0.0 : ℚ)), ("OPM_Change", 0.02),
       ("Rev_Per_Emp", 300000), ("Emp_Momentum", 0.05)] :=
  ⟨rfl, rfl, rfl⟩

/-- C8: the five radar values are, in order, the clamped business score over
100, clamped growth plus one half, clamped one minus the late-pay fraction,
clamped one minus the volatility, and the clamped shifted CEO score, and
every radar value lies in the unit interval (app.py lines 176-182). -/
theorem radar_clamped_and_formulas (v : Vals) :
    data_radar v =
      [clamp01 (v.biz_score / 100), clamp01 (v.sales_growth + 0.5),
       clamp01 (1 - v.late_pay_pct / 100), clamp01 (1 - v.tx_vol),
       clamp01 ((v.ceo_score - 500) / 500)] ∧
    (∀ x ∈ data_radar v, 0 ≤ x ∧ x ≤ 1) := by
  refine ⟨rfl, ?_⟩
  intro x hx
  simp only [data_radar, List.mem_cons, List.not_mem_nil, or_false] at hx
  rcases hx with rfl | rfl | rfl | rfl | rfl <;>
    exact ⟨le_min zero_le_one (le_max_left 0 _), min_le_left 1 _⟩

/-- C8 witness: the first radar value of the default sidebar input is 3/4
and the theorem instance bounds it inside the unit interval. -/
theorem radar_clamped_and_formulas_witness :
    (0 : ℚ) ≤ 3/4 ∧ (3/4 : ℚ) ≤ 1 :=
  (radar_clamped_and_formulas (mkVals 120 100 75 200 120 5 14 0 0.2 850)).2 (3/4)
    (by norm_num [data_radar, mkVals, sales_growth, min_def, max_def])

/-- C9: each peer-comparison flag appears exactly when the applicant value
strictly exceeds its fixed reference of 10, 200 or 5 (app.py lines 259-286);
in particular a late-pay ratio of 25 is flagged while 10 and 8 are not, and
values exactly equal to the debt and delay references are not flagged. -/
theorem peer_flags_strict :
    (∀ v : Vals,
      (latePayFlag v = true ↔ REF_LATE_PAY < v.late_pay_pct) ∧
      (debtFlag v = true ↔ REF_DEBT < v.debt_pct) ∧
      (delayFlag v = true ↔ REF_DELAY < v.avg_delay_days)) ∧
    latePayFlag (mkVals 120 100 75 200 120 25 14 0 0.2 850) = true ∧
    latePayFlag (mkVals 120 100 75 200 120 10 14 0 0.2 850) = false ∧
    latePayFlag (mkVals 120 100 75 200 120 8 14 0 0.2 850) = false ∧
    debtFlag (mkVals 120 100 75 200 120 5 14 0 0.2 850) = false ∧
    delayFlag (mkVals 120 100 75 200 120 5 14 5 0.2 850) = false := by
  refine ⟨fun v => ⟨?_, ?_, ?_⟩, ?_, ?_, ?_, ?_, ?_⟩ <;>
    simp [latePayFlag, debtFlag, delayFlag, REF_LATE_PAY, REF_DEBT, REF_DELAY,
      mkVals, decide_eq_true_eq, decide_eq_false_iff_not] <;>
    norm_num

/-- C10: when the chat-completions call raises, the handler of app.py lines
334-335 only appends the surfaced error message: the stored report (and what
is displayed from it), the stored inputs and prediction, and hence the
recomputed risk score, grade and factor lists are all unchanged, and no
fallback text is written into the report. -/
theorem genai_failure_frame (e : String) (s : Session) :
    (generateStep (Except.error e) s).genai_report = s.genai_report ∧
    displayedReport (generateStep (Except.error e) s) = displayedReport s ∧
    (generateStep (Except.error e) s).vals = s.vals ∧
    (generateStep (Except.error e) s).prob = s.prob ∧
    risk_score (generateStep (Except.error e) s).prob = risk_score s.prob ∧
    grade (risk_score (generateStep (Except.error e) s).prob) = grade (risk_score s.prob) ∧
    riskFactors (generateStep (Except.error e) s).vals = riskFactors s.vals ∧
    (generateStep (Except.error e) s).errors = s.errors ++ ["❌ 에러 발생: " ++ e] :=
  ⟨rfl, rfl, rfl, rfl, rfl, rfl, rfl, rfl⟩

end FlowScore
